import Mathlib

/-!
Shallow embedding of the pytorch-lifestream glue code:
`ptls/nn/trx_encoder/padded_batch.py` (the `PaddedBatch` container),
`pl_train_module.py` (the name-based component dispatcher `main`), and
`ptls/frames/gpt/gpt_dataset.py` (delegating dataset subclasses).

Tensors are modelled as a device tag plus an explicit shape and a flat
row-major integer data list; `Tensor.to(device)` relocates the tensor and
preserves shape and contents.  Dict payloads are association lists keyed by
feature name, in insertion order (Python dict iteration order).
-/

set_option autoImplicit false

/-- A payload tensor: device tag, shape (list of dimension extents), and
flat row-major contents.  Models a `torch.Tensor` as used by `PaddedBatch`
payloads (2D `(B, T)` feature tensors or 3D `(B, T, H)` embedding tensors). -/
structure PTensor where
  device : String
  shape : List Nat
  data : List Int
deriving DecidableEq

/-- The 1D `length` tensor of a `PaddedBatch`: device tag plus the per-sequence
lengths (shape `(B,)`). -/
structure LenTensor where
  device : String
  data : List Int
deriving DecidableEq

/-- Shape of the 1D length tensor, `(B,)`. -/
def LenTensor.shape (t : LenTensor) : List Nat :=
  [t.data.length]

/-- `tensor.to(device=device, non_blocking=nb)`: relocation preserves contents;
the non-blocking flag is a performance hint with no effect on values. -/
def LenTensor.to (t : LenTensor) (device : String) (_nonBlocking : Bool) : LenTensor :=
  { t with device := device }

/-- `tensor.to(device=device, non_blocking=nb)` for payload tensors. -/
def PTensor.to (t : PTensor) (device : String) (_nonBlocking : Bool) : PTensor :=
  { t with device := device }

/-- The two payload formats accepted by `PaddedBatch`: a dict of named feature
tensors (association list in insertion order), or a single tensor
(`(B, T)` feature tensor or `(B, T, H)` embedding tensor). -/
inductive Payload where
  | dict (kvs : List (String × PTensor))
  | tensor (t : PTensor)
deriving DecidableEq

/-- `self._payload.items()`: succeeds on a dict, raises `AttributeError` on a
plain tensor (a `torch.Tensor` has no `.items`). -/
def Payload.items : Payload → Except String (List (String × PTensor))
  | .dict kvs => .ok kvs
  | .tensor _ => .error "AttributeError: Tensor object has no attribute items"

/-- Keys, shapes and contents of a payload, forgetting device placement.
Used to state value-preservation of device transfer. -/
def Payload.contents : Payload → List (String × (List Nat × List Int))
  | .dict kvs => kvs.map fun kv => (kv.1, (kv.2.shape, kv.2.data))
  | .tensor t => [("", (t.shape, t.data))]

/-- `B, T` as computed at the head of `PaddedBatch.seq_len_mask`:
for a dict payload, `B, T = next(iter(payload.values())).size()`
(`StopIteration` on an empty dict, unpacking error unless the first value is
exactly 2D); for a tensor payload, `B, T = payload.size()[:2]`
(unpacking error unless the tensor has at least 2 dims). -/
def Payload.sizeBT : Payload → Option (Nat × Nat)
  | .dict [] => none
  | .dict ((_, v) :: _) =>
    match v.shape with
    | [b, t] => some (b, t)
    | _ => none
  | .tensor t =>
    match t.shape with
    | b :: t2 :: _ => some (b, t2)
    | _ => none

/-- `PaddedBatch`: a padded batch of variable-length sequences, a payload plus
the 1D tensor of true sequence lengths. -/
structure PaddedBatch where
  _payload : Payload
  _length : LenTensor
deriving DecidableEq

/-- The `payload` property. -/
def PaddedBatch.payload (b : PaddedBatch) : Payload :=
  b._payload

/-- The `seq_lens` property. -/
def PaddedBatch.seq_lens (b : PaddedBatch) : LenTensor :=
  b._length

/-- The `device` property: `self._length.device`. -/
def PaddedBatch.device (b : PaddedBatch) : String :=
  b._length.device

/-- `len(batch)`: Python `len(self._length)`, the extent of the 1D length
tensor's first (only) dimension. -/
def PaddedBatch.len (b : PaddedBatch) : Nat :=
  b._length.data.length

/-- `PaddedBatch.to(device, non_blocking)`: relocates the length tensor, then
iterates `self._payload.items()` — which raises on a tensor payload — and
wraps the relocated dict and length in a new `PaddedBatch`. -/
def PaddedBatch.to (b : PaddedBatch) (device : String) (nonBlocking : Bool) :
    Except String PaddedBatch :=
  let length := b._length.to device nonBlocking
  match b._payload.items with
  | .ok kvs => .ok ⟨.dict (kvs.map fun kv => (kv.1, kv.2.to device nonBlocking)), length⟩
  | .error e => .error e

/-- `torch.arange(T)` as a list of integers `0, 1, ..., T-1`. -/
def arange (t : Nat) : List Int :=
  (List.range t).map Int.ofNat

/-- `row.unsqueeze(0).expand(B, T)`: `B` copies of the length-`T` row. -/
def expandRows (b : Nat) (row : List Int) : List (List Int) :=
  List.replicate b row

/-- Elementwise `<` of a `(B, T)` grid against a `(B2, 1)` column with torch
broadcasting over the batch dimension, followed by `.long()`:
entries are `1` where the comparison holds and `0` elsewhere; `none` models the
broadcast error when `B2` and `B` differ and neither is `1`. -/
def ltGridCol (grid : List (List Int)) (col : List Int) : Option (List (List Int)) :=
  if col.length = grid.length then
    some ((List.range grid.length).map fun i =>
      (grid.getD i []).map fun x => if x < col.getD i 0 then 1 else 0)
  else if col.length = 1 then
    some (grid.map fun row => row.map fun x => if x < col.getD 0 0 then 1 else 0)
  else if grid.length = 1 then
    some (col.map fun c => (grid.getD 0 []).map fun x => if x < c then 1 else 0)
  else none

/-- The `seq_len_mask` property:
`(torch.arange(T, device=length.device).unsqueeze(0).expand(B, T) <
length.unsqueeze(1)).long()`, where `B, T` come from `Payload.sizeBT`.
The resulting mask lives on the length tensor's device.  `none` models the
runtime errors (empty dict, wrong payload rank, incompatible broadcast). -/
def PaddedBatch.seq_len_mask (b : PaddedBatch) : Option PTensor :=
  match b._payload.sizeBT with
  | none => none
  | some (bs, t) =>
    match ltGridCol (expandRows bs (arange t)) b._length.data with
    | none => none
    | some rows => some ⟨b._length.device, [rows.length, t], rows.flatten⟩

/-- Row-major element access into a `(B, T)` tensor: entry `(i, t)` sits at
flat index `i * T + t`. -/
def PTensor.at2 (m : PTensor) (i t : Nat) : Int :=
  m.data.getD (i * m.shape.getD 1 0 + t) 0

/-- The mask rows produced by `seq_len_mask` when the batch extent of the
payload equals the extent of the length tensor: row `i` holds `1` at the
positions strictly below `length[i]` and `0` elsewhere. -/
def maskRows (lens : List Int) (bs t : Nat) : List (List Int) :=
  (List.range bs).map fun i =>
    (arange t).map fun x => if x < lens.getD i 0 then 1 else 0

example :
    (PaddedBatch.mk
      (.dict [("amount", ⟨"cpu", [3, 4], [1, 2, 0, 0, 3, 4, 5, 6, 7, 8, 9, 0]⟩)])
      ⟨"cpu", [2, 4, 3]⟩).seq_len_mask =
    some ⟨"cpu", [3, 4], [1, 1, 0, 0, 1, 1, 1, 1, 1, 1, 1, 0]⟩ := by
  decide

example :
    (PaddedBatch.mk
      (.dict [("amount", ⟨"cpu", [3, 4], [1, 2, 0, 0, 3, 4, 5, 6, 7, 8, 9, 0]⟩)])
      ⟨"cpu", [2, 4, 3]⟩).len = 3 := by
  decide

/-! ## The component dispatcher of `pl_train_module.py` -/

/-- The two data-preparation component classes scanned by the dispatcher,
`[ColesDataModuleTrain, CpcDataModuleTrain]`. -/
inductive DataModuleClass where
  | ColesDataModuleTrain
  | CpcDataModuleTrain
deriving DecidableEq

/-- `__name__` of a data-module class. -/
def DataModuleClass.className : DataModuleClass → String
  | .ColesDataModuleTrain => "ColesDataModuleTrain"
  | .CpcDataModuleTrain => "CpcDataModuleTrain"

/-- The fixed ordered list scanned for `data_module_name`. -/
def dataModuleRegistry : List DataModuleClass :=
  [.ColesDataModuleTrain, .CpcDataModuleTrain]

/-- The two training-objective (pl module) classes scanned by the dispatcher,
`[CoLESModule, CpcModule]`. -/
inductive PlModuleClass where
  | CoLESModule
  | CpcModule
deriving DecidableEq

/-- `__name__` of a pl-module class. -/
def PlModuleClass.className : PlModuleClass → String
  | .CoLESModule => "CoLESModule"
  | .CpcModule => "CpcModule"

/-- The fixed ordered list scanned for `pl_module_name`. -/
def plModuleRegistry : List PlModuleClass :=
  [.CoLESModule, .CpcModule]

/-- The `for m in [...]: if m.__name__ == name: ...; break` scan for the data
module: first registry entry whose class name equals the requested name. -/
def findDataModule (name : String) : Option DataModuleClass :=
  dataModuleRegistry.find? fun m => m.className = name

/-- The same scan for the pl module. -/
def findPlModule (name : String) : Option PlModuleClass :=
  plModuleRegistry.find? fun m => m.className = name

/-- The configuration keys consumed by `main`.  The nested `params`,
`data_module` and `trainer` blocks are opaque to the dispatcher and are
modelled as opaque strings passed through untouched. -/
structure Conf where
  seed_everything : Option Int
  data_module_name : String
  pl_module_name : String
  params : String
  data_module : String
  trainer : String
  model_path : Option String
deriving DecidableEq

/-- A constructed objective component: `pl_module(conf['params'])`. -/
structure PlModel where
  cls : PlModuleClass
  paramsBlock : String
deriving DecidableEq

/-- A constructed data component:
`data_module(conf['data_module'], model)` — it holds a reference to the
objective component it was built with. -/
structure DataModuleInst where
  cls : DataModuleClass
  block : String
  model : PlModel
deriving DecidableEq

/-- A constructed external trainer: `pl.Trainer(**conf['trainer'])`. -/
structure TrainerInst where
  trainerBlock : String
deriving DecidableEq

/-- The observable actions `main` performs, in program order. -/
inductive Event where
  | seedEverything (seed : Int)
  | logInfo (msg : String)
  | constructPlModule (model : PlModel)
  | constructDataModule (dm : DataModuleInst)
  | constructTrainer (t : TrainerInst)
  | fit (t : TrainerInst) (model : PlModel) (dm : DataModuleInst)
  | saveCheckpoint (t : TrainerInst) (path : String) (weightsOnly : Bool)
deriving DecidableEq

/-- Outcome of `main`: the trace of actions performed, and on the error path
the message of the `NotImplementedError` raised (actions already performed
before the raise stay in the trace). -/
inductive MainResult where
  | ok (trace : List Event)
  | err (trace : List Event) (msg : String)
deriving DecidableEq

/-- `pl_train_module.main`, modelled step for step:
seed if configured, resolve `data_module_name` (raise on no match), resolve
`pl_module_name` (raise on no match), construct the objective from `params`,
the data component from `data_module` plus the objective, the trainer from
`trainer`, run `trainer.fit`, and finally save weights-only iff `model_path`
is configured. -/
def trainMain (conf : Conf) : MainResult :=
  let tr0 : List Event :=
    match conf.seed_everything with
    | some s => [.seedEverything s]
    | none => []
  match findDataModule conf.data_module_name with
  | none => .err tr0 ("Unknown data module " ++ conf.data_module_name)
  | some dmCls =>
    let tr1 := tr0 ++ [.logInfo (dmCls.className ++ " used")]
    match findPlModule conf.pl_module_name with
    | none => .err tr1 ("Unknown pl module " ++ conf.pl_module_name)
    | some plCls =>
      let tr2 := tr1 ++ [.logInfo (plCls.className ++ " used")]
      let model : PlModel := ⟨plCls, conf.params⟩
      let dm : DataModuleInst := ⟨dmCls, conf.data_module, model⟩
      let trainer : TrainerInst := ⟨conf.trainer⟩
      let tr3 := tr2 ++ [.constructPlModule model, .constructDataModule dm,
        .constructTrainer trainer, .fit trainer model dm]
      match conf.model_path with
      | some p =>
        .ok (tr3 ++ [.saveCheckpoint trainer p true,
          .logInfo ("Model weights saved to " ++ p)])
      | none => .ok tr3

/-- The actions of the optional seeding step at the head of `main`. -/
def seedTrace : Option Int → List Event
  | some s => [.seedEverything s]
  | none => []

/-- The actions of the optional weights-only save at the tail of `main`. -/
def saveTrace (t : TrainerInst) : Option String → List Event
  | some p => [.saveCheckpoint t p true, .logInfo ("Model weights saved to " ++ p)]
  | none => []

/-! ## The delegating dataset subclasses of `gpt_dataset.py` -/

/-- A class's own method table: method name to implementation id. -/
abbrev MethodTable := List (String × Nat)

/-- Look a method up in a single class's own table. -/
def resolveOwn (own : MethodTable) (m : String) : Option Nat :=
  (own.find? fun p => p.1 = m).map Prod.snd

/-- Attribute resolution on `MlmDataset` (defined outside this repository;
its own table is an arbitrary parameter `mlm`). -/
def MlmDataset.resolve (mlm : MethodTable) (m : String) : Option Nat :=
  resolveOwn mlm m

/-- `class GptDataset(MlmDataset): pass` — an empty class body. -/
def GptDataset.ownMethods : MethodTable := []

/-- Attribute resolution on `GptDataset`: its own (empty) table first, then
the `MlmDataset` base. -/
def GptDataset.resolve (mlm : MethodTable) (m : String) : Option Nat :=
  (resolveOwn GptDataset.ownMethods m).orElse fun _ => MlmDataset.resolve mlm m

/-- `class GptIterableDataset(GptDataset, torch.utils.data.IterableDataset):
pass` — an empty class body. -/
def GptIterableDataset.ownMethods : MethodTable := []

/-- Attribute resolution on `GptIterableDataset` along its method resolution
order: own (empty) table, then the `GptDataset` chain, then the
`IterableDataset` mix-in table `iter`. -/
def GptIterableDataset.resolve (mlm iter : MethodTable) (m : String) : Option Nat :=
  ((resolveOwn GptIterableDataset.ownMethods m).orElse fun _ =>
    GptDataset.resolve mlm m).orElse fun _ => resolveOwn iter m

/-- Modelled from the spec: the behavior the spec assigns to `GptIterableDataset`
— exactly `MlmDataset`'s behavior with only the iterable-dataset capability
mixed in on top (methods of the iterable mix-in used only where the inherited
chain defines nothing). -/
def specIterableBehavior (mlm iter : MethodTable) (m : String) : Option Nat :=
  (MlmDataset.resolve mlm m).orElse fun _ => resolveOwn iter m

/-! ## Helper lemmas on list indexing -/

theorem getD_map_range {α : Type} (n : Nat) (f : Nat → α) (i : Nat) (d : α)
    (h : i < n) : ((List.range n).map f).getD i d = f i := by
  rw [List.getD_eq_getElem?_getD, List.getElem?_map]
  simp [List.getElem?_range, h]

theorem arange_getElem (t tt : Nat) (h : tt < t) :
    (arange t)[tt]? = some (Int.ofNat tt) := by
  simp [arange, List.getElem?_map, List.getElem?_range, h]

/-- Flat row-major index `i * T + t` into the flattening of a list of rows of
uniform length `T` reads row `i` at offset `t`. -/
theorem flatten_getD_uniform (l : List (List Int)) (tDim : Nat)
    (hT : ∀ r ∈ l, r.length = tDim) (i t : Nat) (hi : i < l.length)
    (ht : t < tDim) :
    l.flatten.getD (i * tDim + t) 0 = (l.getD i []).getD t 0 := by
  induction l generalizing i with
  | nil => simp at hi
  | cons r rest ih =>
    have hr : r.length = tDim := hT r (List.mem_cons_self r rest)
    cases i with
    | zero =>
      simp only [Nat.zero_mul, Nat.zero_add, List.flatten_cons]
      rw [List.getD_eq_getElem?_getD, List.getElem?_append,
        if_pos (by omega : t < r.length)]
      rw [List.getD_cons_zero, List.getD_eq_getElem?_getD]
    | succ i =>
      have hmul : (i + 1) * tDim = i * tDim + tDim := Nat.succ_mul i tDim
      simp only [List.flatten_cons]
      rw [List.getD_eq_getElem?_getD, List.getElem?_append,
        if_neg (by omega : ¬ (i + 1) * tDim + t < r.length)]
      have hidx : (i + 1) * tDim + t - r.length = i * tDim + t := by omega
      rw [hidx, List.getD_cons_succ, ← List.getD_eq_getElem?_getD]
      exact ih (fun r2 h2 => hT r2 (List.mem_cons_of_mem r h2)) i (by
        simp only [List.length_cons] at hi
        omega)

theorem maskRows_length (lens : List Int) (bs t : Nat) :
    (maskRows lens bs t).length = bs := by
  simp [maskRows]

theorem maskRows_row_length (lens : List Int) (bs t : Nat) :
    ∀ r ∈ maskRows lens bs t, r.length = t := by
  intro r hr
  simp only [maskRows, List.mem_map] at hr
  obtain ⟨i, _, rfl⟩ := hr
  simp [arange]

theorem ltGridCol_eq_maskRows (lens : List Int) (bs t : Nat)
    (hlen : lens.length = bs) :
    ltGridCol (expandRows bs (arange t)) lens = some (maskRows lens bs t) := by
  unfold ltGridCol
  have hg : (expandRows bs (arange t)).length = bs := by simp [expandRows]
  rw [if_pos (by rw [hg, hlen])]
  rw [hg]
  unfold maskRows
  congr 1
  apply List.map_congr_left
  intro i hi
  rw [List.mem_range] at hi
  congr 1
  rw [List.getD_eq_getElem?_getD]
  simp [expandRows, List.getElem?_replicate, hi]

/-- Closed form of `seq_len_mask` when the payload's batch extent matches the
length tensor's extent: the mask lives on the length tensor's device and has
rows `maskRows`. -/
theorem seq_len_mask_eq_of_len_match (b : PaddedBatch) (bs t : Nat)
    (hBT : b._payload.sizeBT = some (bs, t))
    (hlen : b._length.data.length = bs) :
    b.seq_len_mask = some ⟨b._length.device, [bs, t],
      (maskRows b._length.data bs t).flatten⟩ := by
  unfold PaddedBatch.seq_len_mask
  rw [hBT]
  simp only [ltGridCol_eq_maskRows b._length.data bs t hlen, maskRows_length]

/-! ## Claim theorems -/

/-- C1: for every `PaddedBatch` whose payload determines extents `(bs, t)` and
whose length tensor has one entry per sequence, the derived `seq_len_mask` has
entry `(i, tt)` equal to `1` if and only if `tt < length[i]`, for every
sequence index `i < bs` and time index `tt < t`. -/
theorem seq_len_mask_valid_iff (b : PaddedBatch) (bs t i tt : Nat)
    (hBT : b._payload.sizeBT = some (bs, t))
    (hlen : b._length.data.length = bs)
    (hi : i < bs) (ht : tt < t) :
    ∃ mask, b.seq_len_mask = some mask ∧
      (mask.at2 i tt = 1 ↔ (tt : Int) < b._length.data.getD i 0) := by
  refine ⟨_, seq_len_mask_eq_of_len_match b bs t hBT hlen, ?_⟩
  unfold PTensor.at2
  have hshape : (List.getD [bs, t] 1 0) = t := rfl
  simp only [hshape]
  rw [flatten_getD_uniform (maskRows b._length.data bs t) t
    (maskRows_row_length _ _ _) i tt (by rw [maskRows_length]; exact hi) ht]
  unfold maskRows
  rw [getD_map_range bs _ i [] hi]
  rw [List.getD_eq_getElem?_getD, List.getElem?_map, arange_getElem t tt ht]
  have hcast : Int.ofNat tt = (tt : Int) := rfl
  by_cases hc : (tt : Int) < b._length.data.getD i 0
  · simp [hcast, hc]
  · simp [hcast, hc]

/-- Witness for C1 at the spec's end-to-end scenario A, sequence 0, time 1. -/
theorem seq_len_mask_valid_iff_witness :
    ∃ mask,
      (PaddedBatch.mk
        (.dict [("amount", PTensor.mk "cpu" [3, 4] [1, 2, 0, 0, 3, 4, 5, 6, 7, 8, 9, 0])])
        (LenTensor.mk "cpu" [2, 4, 3])).seq_len_mask = some mask ∧
      (mask.at2 0 1 = 1 ↔ (1 : Int) < 2) :=
  seq_len_mask_valid_iff _ 3 4 0 1 rfl rfl (by decide) (by decide)

/-- C5: the dispatcher resolves each of the two known data-component names and
each of the two known objective-component names to exactly one constructor,
matching by exact name equality against the fixed ordered lists. -/
theorem registry_resolution_exact :
    (findDataModule "ColesDataModuleTrain" = some DataModuleClass.ColesDataModuleTrain ∧
      (dataModuleRegistry.filter fun m => m.className = "ColesDataModuleTrain").length = 1) ∧
    (findDataModule "CpcDataModuleTrain" = some DataModuleClass.CpcDataModuleTrain ∧
      (dataModuleRegistry.filter fun m => m.className = "CpcDataModuleTrain").length = 1) ∧
    (findPlModule "CoLESModule" = some PlModuleClass.CoLESModule ∧
      (plModuleRegistry.filter fun m => m.className = "CoLESModule").length = 1) ∧
    (findPlModule "CpcModule" = some PlModuleClass.CpcModule ∧
      (plModuleRegistry.filter fun m => m.className = "CpcModule").length = 1) := by
  decide

/-- C8: `len(batch)` equals the extent of the `length` tensor,
`length.shape[0]`, for every valid `(payload, length)` pair. -/
theorem len_eq_length_extent (payload : Payload) (length : LenTensor) :
    (PaddedBatch.mk payload length).len = length.shape.getD 0 0 := rfl

/-- C9: `GptDataset` resolves every attribute exactly as `MlmDataset` does
(no added behavior), and `GptIterableDataset` resolves exactly as
`MlmDataset` with only the iterable-dataset mix-in's methods as a final
fallback — the iterable capability and nothing else. -/
theorem gpt_dataset_pure_delegation (mlm iter : MethodTable) (m : String) :
    GptDataset.resolve mlm m = MlmDataset.resolve mlm m ∧
    GptIterableDataset.resolve mlm iter m = specIterableBehavior mlm iter m :=
  ⟨rfl, rfl⟩

/-- C10: the `device` property returns the device of the length tensor, and a
derived `seq_len_mask` is allocated on that same device, regardless of where
the payload arrays reside. -/
theorem device_follows_length (b : PaddedBatch) (mask : PTensor)
    (h : b.seq_len_mask = some mask) :
    b.device = b._length.device ∧ mask.device = b._length.device := by
  refine ⟨rfl, ?_⟩
  unfold PaddedBatch.seq_len_mask at h
  split at h
  · simp at h
  · split at h
    · simp at h
    · cases h
      rfl

/-- Witness for C10 on a batch whose payload lives on a different device than
its length tensor. -/
theorem device_follows_length_witness :
    (PaddedBatch.mk (.dict [("amount", PTensor.mk "cuda:0" [2, 2] [1, 2, 3, 4])])
        (LenTensor.mk "cpu" [1, 2])).device = "cpu" ∧
      (PTensor.mk "cpu" [2, 2] [1, 0, 1, 1]).device = "cpu" :=
  device_follows_length _ _ (by decide)

/-- Canonical trace of `main` on a configuration that resolves both component
names: optional seeding, the two log lines, the objective construction from
`params`, the data-component construction from `data_module` plus the
objective, the trainer construction from `trainer`, the fit call, and the
optional weights-only save. -/
theorem trainMain_ok_eq (conf : Conf) (dmCls : DataModuleClass)
    (plCls : PlModuleClass)
    (hdm : findDataModule conf.data_module_name = some dmCls)
    (hpl : findPlModule conf.pl_module_name = some plCls) :
    trainMain conf = .ok (seedTrace conf.seed_everything ++
      [.logInfo (dmCls.className ++ " used"),
       .logInfo (plCls.className ++ " used"),
       .constructPlModule ⟨plCls, conf.params⟩,
       .constructDataModule ⟨dmCls, conf.data_module, ⟨plCls, conf.params⟩⟩,
       .constructTrainer ⟨conf.trainer⟩,
       .fit ⟨conf.trainer⟩ ⟨plCls, conf.params⟩
         ⟨dmCls, conf.data_module, ⟨plCls, conf.params⟩⟩] ++
      saveTrace ⟨conf.trainer⟩ conf.model_path) := by
  unfold trainMain
  rw [hdm, hpl]
  cases conf.seed_everything <;> cases conf.model_path <;>
    simp [seedTrace, saveTrace]

/-- C4: when `data_module_name` (or, it resolving, `pl_module_name`) matches
no registry entry, `main` raises an unknown-component error whose message
contains the offending identifier and the external trainer is never
constructed; when both names match, no error is raised. -/
theorem unknown_component_error (conf : Conf) :
    (findDataModule conf.data_module_name = none →
      ∃ tr, trainMain conf =
          .err tr ("Unknown data module " ++ conf.data_module_name) ∧
        (∃ pre, "Unknown data module " ++ conf.data_module_name =
          pre ++ conf.data_module_name) ∧
        ∀ t, Event.constructTrainer t ∉ tr) ∧
    (∀ dmCls, findDataModule conf.data_module_name = some dmCls →
      findPlModule conf.pl_module_name = none →
      ∃ tr, trainMain conf =
          .err tr ("Unknown pl module " ++ conf.pl_module_name) ∧
        (∃ pre, "Unknown pl module " ++ conf.pl_module_name =
          pre ++ conf.pl_module_name) ∧
        ∀ t, Event.constructTrainer t ∉ tr) ∧
    (∀ dmCls plCls, findDataModule conf.data_module_name = some dmCls →
      findPlModule conf.pl_module_name = some plCls →
      ∃ tr, trainMain conf = .ok tr) := by
  refine ⟨?_, ?_, ?_⟩
  · intro h
    unfold trainMain
    rw [h]
    refine ⟨_, rfl, ⟨"Unknown data module ", rfl⟩, ?_⟩
    intro t
    cases conf.seed_everything <;> simp
  · intro dmCls hdm hpl
    unfold trainMain
    rw [hdm, hpl]
    refine ⟨_, rfl, ⟨"Unknown pl module ", rfl⟩, ?_⟩
    intro t
    cases conf.seed_everything <;> simp
  · intro dmCls plCls hdm hpl
    exact ⟨_, trainMain_ok_eq conf dmCls plCls hdm hpl⟩

/-- Witness for C4: the spec's scenario B configuration with
`data_module_name = "UnknownThing"` errors without constructing a trainer, and
a fully resolving configuration runs without error. -/
theorem unknown_component_error_witness :
    (∃ tr, trainMain ⟨none, "UnknownThing", "CoLESModule", "p", "d", "t", none⟩ =
        .err tr ("Unknown data module " ++ "UnknownThing") ∧
      (∃ pre, "Unknown data module " ++ "UnknownThing" = pre ++ "UnknownThing") ∧
      ∀ t, Event.constructTrainer t ∉ tr) ∧
    (∃ tr, trainMain
      ⟨none, "ColesDataModuleTrain", "CoLESModule", "p", "d", "t", none⟩ =
        .ok tr) :=
  ⟨(unknown_component_error _).1 (by decide),
   (unknown_component_error _).2.2 DataModuleClass.ColesDataModuleTrain
     PlModuleClass.CoLESModule (by decide) (by decide)⟩

/-- C6: for every configuration that resolves both names, `main` constructs the
objective component from the `params` block first, then the data component
from the `data_module` block with a reference to that very objective, then the
trainer from the `trainer` block, and only then invokes the trainer's fit on
the pair. -/
theorem construction_order (conf : Conf) (dmCls : DataModuleClass)
    (plCls : PlModuleClass)
    (hdm : findDataModule conf.data_module_name = some dmCls)
    (hpl : findPlModule conf.pl_module_name = some plCls) :
    ∃ pre post, trainMain conf = .ok (pre ++
      [Event.constructPlModule ⟨plCls, conf.params⟩,
       Event.constructDataModule ⟨dmCls, conf.data_module, ⟨plCls, conf.params⟩⟩,
       Event.constructTrainer ⟨conf.trainer⟩,
       Event.fit ⟨conf.trainer⟩ ⟨plCls, conf.params⟩
         ⟨dmCls, conf.data_module, ⟨plCls, conf.params⟩⟩] ++ post) := by
  refine ⟨seedTrace conf.seed_everything ++
    [.logInfo (dmCls.className ++ " used"), .logInfo (plCls.className ++ " used")],
    saveTrace ⟨conf.trainer⟩ conf.model_path, ?_⟩
  rw [trainMain_ok_eq conf dmCls plCls hdm hpl]
  simp

/-- Witness for C6 on a concrete fully resolving configuration. -/
theorem construction_order_witness :
    ∃ pre post, trainMain ⟨some 42, "CpcDataModuleTrain", "CpcModule", "p", "d", "t",
        some "out.ckpt"⟩ = .ok (pre ++
      [Event.constructPlModule ⟨PlModuleClass.CpcModule, "p"⟩,
       Event.constructDataModule ⟨DataModuleClass.CpcDataModuleTrain, "d",
         ⟨PlModuleClass.CpcModule, "p"⟩⟩,
       Event.constructTrainer ⟨"t"⟩,
       Event.fit ⟨"t"⟩ ⟨PlModuleClass.CpcModule, "p"⟩
         ⟨DataModuleClass.CpcDataModuleTrain, "d", ⟨PlModuleClass.CpcModule, "p"⟩⟩]
      ++ post) :=
  construction_order _ DataModuleClass.CpcDataModuleTrain PlModuleClass.CpcModule
    (by decide) (by decide)

/-- C7: on a configuration that resolves both names, a weights-only save of
the trained model to the configured path occurs right after the fit call if
and only if the configuration contains a `model_path`; without `model_path`
no save call occurs. -/
theorem save_iff_model_path (conf : Conf) (dmCls : DataModuleClass)
    (plCls : PlModuleClass)
    (hdm : findDataModule conf.data_module_name = some dmCls)
    (hpl : findPlModule conf.pl_module_name = some plCls) :
    ∃ tr, trainMain conf = .ok tr ∧
      (∀ p, conf.model_path = some p →
        ∃ pre post, tr = pre ++
          [Event.fit ⟨conf.trainer⟩ ⟨plCls, conf.params⟩
            ⟨dmCls, conf.data_module, ⟨plCls, conf.params⟩⟩,
           Event.saveCheckpoint ⟨conf.trainer⟩ p true] ++ post) ∧
      (conf.model_path = none →
        ∀ t p w, Event.saveCheckpoint t p w ∉ tr) := by
  refine ⟨_, trainMain_ok_eq conf dmCls plCls hdm hpl, ?_, ?_⟩
  · intro p hp
    rw [hp]
    refine ⟨seedTrace conf.seed_everything ++
      [.logInfo (dmCls.className ++ " used"), .logInfo (plCls.className ++ " used"),
       .constructPlModule ⟨plCls, conf.params⟩,
       .constructDataModule ⟨dmCls, conf.data_module, ⟨plCls, conf.params⟩⟩,
       .constructTrainer ⟨conf.trainer⟩],
      [.logInfo ("Model weights saved to " ++ p)], ?_⟩
    simp [saveTrace]
  · intro hnone t p w
    rw [hnone]
    cases conf.seed_everything <;> simp [seedTrace, saveTrace]

/-- Witness for C7: with `model_path` configured the save call appears right
after the fit call, and without it no save call appears. -/
theorem save_iff_model_path_witness :
    (∃ tr, trainMain ⟨none, "ColesDataModuleTrain", "CpcModule", "p", "d", "t",
        some "w.ckpt"⟩ = .ok tr ∧
      (∀ p, (some "w.ckpt" : Option String) = some p →
        ∃ pre post, tr = pre ++
          [Event.fit ⟨"t"⟩ ⟨PlModuleClass.CpcModule, "p"⟩
            ⟨DataModuleClass.ColesDataModuleTrain, "d", ⟨PlModuleClass.CpcModule, "p"⟩⟩,
           Event.saveCheckpoint ⟨"t"⟩ p true] ++ post) ∧
      ((some "w.ckpt" : Option String) = none →
        ∀ t p w, Event.saveCheckpoint t p w ∉ tr)) ∧
    (∃ tr, trainMain ⟨none, "ColesDataModuleTrain", "CpcModule", "p", "d", "t",
        none⟩ = .ok tr ∧
      (∀ p, (none : Option String) = some p →
        ∃ pre post, tr = pre ++
          [Event.fit ⟨"t"⟩ ⟨PlModuleClass.CpcModule, "p"⟩
            ⟨DataModuleClass.ColesDataModuleTrain, "d", ⟨PlModuleClass.CpcModule, "p"⟩⟩,
           Event.saveCheckpoint ⟨"t"⟩ p true] ++ post) ∧
      ((none : Option String) = none →
        ∀ t p w, Event.saveCheckpoint t p w ∉ tr)) :=
  ⟨save_iff_model_path _ DataModuleClass.ColesDataModuleTrain PlModuleClass.CpcModule
     (by decide) (by decide),
   save_iff_model_path _ DataModuleClass.ColesDataModuleTrain PlModuleClass.CpcModule
     (by decide) (by decide)⟩

/-- C2 counterexample: on a single-tensor (feature or embedded) payload, `to`
does not return a relocated container — it fails with the `AttributeError`
raised by `self._payload.items()`. -/
theorem to_tensor_payload_fails :
    (PaddedBatch.mk (.tensor (PTensor.mk "cpu" [2, 3] [1, 2, 3, 4, 5, 6]))
        (LenTensor.mk "cpu" [3, 2])).to "cuda:0" false =
      .error "AttributeError: Tensor object has no attribute items" := rfl

/-- C2 (amended): for every `PaddedBatch` whose payload is a mapping, `to`
returns a new container with every array (payload values and length tensor)
relocated to the target device, preserving the keys, shapes and contents of
the payload and the values of the length tensor. -/
theorem to_relocates_dict_payload (b : PaddedBatch)
    (kvs : List (String × PTensor)) (dev : String) (nb : Bool)
    (h : b._payload = .dict kvs) :
    ∃ kvs2, b.to dev nb = .ok ⟨.dict kvs2, ⟨dev, b._length.data⟩⟩ ∧
      kvs2.map Prod.fst = kvs.map Prod.fst ∧
      (kvs2.map fun kv => kv.2.shape) = (kvs.map fun kv => kv.2.shape) ∧
      (kvs2.map fun kv => kv.2.data) = (kvs.map fun kv => kv.2.data) ∧
      ∀ kv ∈ kvs2, kv.2.device = dev := by
  refine ⟨kvs.map fun kv => (kv.1, kv.2.to dev nb), ?_, ?_, ?_, ?_, ?_⟩
  · unfold PaddedBatch.to
    rw [h]
    rfl
  · simp only [List.map_map]
    rfl
  · simp only [List.map_map]
    rfl
  · simp only [List.map_map]
    rfl
  · intro kv hkv
    simp only [List.mem_map] at hkv
    obtain ⟨kv0, _, rfl⟩ := hkv
    rfl

/-- Witness for C2 on a one-feature batch moved from cpu to another device. -/
theorem to_relocates_dict_payload_witness :
    ∃ kvs2, (PaddedBatch.mk (.dict [("amount", PTensor.mk "cpu" [1, 2] [5, 6])])
        (LenTensor.mk "cpu" [2])).to "cuda:0" true =
        .ok ⟨.dict kvs2, LenTensor.mk "cuda:0" [2]⟩ ∧
      kvs2.map Prod.fst = ["amount"] ∧
      (kvs2.map fun kv => kv.2.shape) = [[1, 2]] ∧
      (kvs2.map fun kv => kv.2.data) = [[5, 6]] ∧
      ∀ kv ∈ kvs2, kv.2.device = "cuda:0" :=
  to_relocates_dict_payload _ [("amount", PTensor.mk "cpu" [1, 2] [5, 6])]
    "cuda:0" true rfl

/-- C3 counterexample: a batch with an embedded 3D tensor payload cannot even
be transferred to its own device and back — the round trip fails with an
`AttributeError` instead of reproducing the original contents. -/
theorem to_roundtrip_tensor_payload_fails :
    ((PaddedBatch.mk (.tensor (PTensor.mk "cpu" [1, 2, 3] [1, 2, 3, 4, 5, 6]))
        (LenTensor.mk "cpu" [2])).to
        (PaddedBatch.mk (.tensor (PTensor.mk "cpu" [1, 2, 3] [1, 2, 3, 4, 5, 6]))
          (LenTensor.mk "cpu" [2])).device false).bind
      (fun b1 => b1.to "cpu" false) =
      .error "AttributeError: Tensor object has no attribute items" := rfl

/-- C3 (amended): for every `PaddedBatch` whose payload is a mapping,
transferring to any device and then back to the original device yields a
container whose length values and payload keys, shapes and contents are
numerically equal to the originals.  The embedded `to` is a pure constructor
of a fresh container, so the source batch is left unchanged by construction. -/
theorem to_roundtrip_preserves_contents (b : PaddedBatch)
    (kvs : List (String × PTensor)) (dev : String) (nb nb2 : Bool)
    (h : b._payload = .dict kvs) :
    ∃ b2, ((b.to dev nb).bind fun b1 => b1.to b.device nb2) = .ok b2 ∧
      b2._length.device = b.device ∧ b2._length.data = b._length.data ∧
      b2._payload.contents = b._payload.contents := by
  refine ⟨⟨.dict ((kvs.map fun kv => (kv.1, kv.2.to dev nb)).map
      fun kv => (kv.1, kv.2.to b.device nb2)), ⟨b.device, b._length.data⟩⟩,
    ?_, rfl, rfl, ?_⟩
  · unfold PaddedBatch.to
    rw [h]
    rfl
  · rw [h]
    simp only [Payload.contents, List.map_map]
    rfl

/-- Witness for C3: a cpu batch bounced through another device and back keeps
its keys, shapes and values. -/
theorem to_roundtrip_preserves_contents_witness :
    ∃ b2, (((PaddedBatch.mk (.dict [("mcc", PTensor.mk "cpu" [1, 2] [7, 8])])
        (LenTensor.mk "cpu" [2])).to "cuda:1" false).bind
      fun b1 => b1.to (PaddedBatch.mk (.dict [("mcc", PTensor.mk "cpu" [1, 2] [7, 8])])
        (LenTensor.mk "cpu" [2])).device false) = .ok b2 ∧
      b2._length.device = "cpu" ∧ b2._length.data = [2] ∧
      b2._payload.contents = [("mcc", ([1, 2], [7, 8]))] :=
  to_roundtrip_preserves_contents _ [("mcc", PTensor.mk "cpu" [1, 2] [7, 8])]
    "cuda:1" false false rfl

